import Mathlib

/-!
Shallow embedding of the `dynuupdater` program (Rust sources `src/main.rs`,
`src/dynu.rs`, `src/netutils.rs`) for checking its design specification.

Modelling conventions:
* Rust `Option<T>` becomes `Option T`, `Result<T, E>` becomes `Except E T`,
  `u64`/`u32` become `Nat` (no arithmetic is performed on them, so no
  overflow wrapping is needed).
* The HTTP transport and DNS lookup collaborators are modelled as explicit
  environment values describing the outcome each remote endpoint would
  return during one invocation; the reconciler functions are translated as
  pure functions of those environments.
* Every call the program makes to the remote directory client
  (`DynuClient`) is recorded in an explicit trace of `RemoteCall` values,
  so that claims about how many read/write calls an operation issues
  become statements about that trace.
* A Rust `.unwrap()` on an `Option` is modelled as an explicit
  `SelfError.panicked` outcome when the option is `none` (a Rust panic
  aborts the process; here it is a distinguished terminal error).
* Diagnostic output (`eprintln!`) is ignored: it is out of scope in the
  specification and carries no decision logic.
-/

/-! ## Data model (from `src/dynu.rs`) -/

/-- Structure `DomainDTO` from `dynu.rs` lines 45-63. -/
structure DomainDTO where
  id : Option Nat
  name : String
  unicode_name : String
  token : Option String
  state : String
  group : String
  ipv4_address : Option String
  ipv6_address : Option String
  ttl : Nat
  ipv4 : Bool
  ipv6 : Bool
  ipv4_wildcard_alias : Bool
  ipv6_wildcard_alias : Bool
  created_on : Option String
  updated_on : Option String
deriving Repr, DecidableEq

/-- Inductive `RecordDTO` from `dynu.rs` lines 72-121: a tagged union of the TXT, SOA
and A record kinds, with exactly the fields of the Rust enum. -/
inductive RecordDTO where
  | TxtRecord (id : Option Nat) (domain_id : Option Nat)
      (domain_name : Option String) (node_name : String)
      (hostname : Option String) (ttl : Nat) (state : Bool)
      (content : Option String) (updated_on : Option String)
      (text_data : String)
  | SoaRecord (id : Option Nat) (domain_id : Option Nat)
      (domain_name : Option String) (node_name : String)
      (hostname : Option String) (ttl : Nat) (state : Bool)
      (content : Option String) (updated_on : String)
      (master_name : String) (responsible_name : String)
      (refresh : Nat) (retry : Nat) (expire : Nat) (negative_ttl : Nat)
  | ARecord (id : Option Nat) (domain_id : Option Nat)
      (domain_name : Option String) (node_name : String)
      (hostname : Option String) (ttl : Nat) (state : Bool)
      (content : Option String) (updated_on : Option String)
      (group : String)
deriving Repr, DecidableEq

/-- Accessor `RecordDTO::id` from `dynu.rs` lines 138-144: extract the optional
identity regardless of the variant held. -/
def RecordDTO.id : RecordDTO → Option Nat
  | .TxtRecord i _ _ _ _ _ _ _ _ _ => i
  | .SoaRecord i _ _ _ _ _ _ _ _ _ _ _ _ _ _ => i
  | .ARecord i _ _ _ _ _ _ _ _ _ => i

/-- Constructor `RecordDTO::txt_record` from `dynu.rs` lines 124-137: the free-text
record constructor as it is written in `dynu.rs`, taking node name, text
payload and ttl, and always leaving the identity (and the owning-domain
fields) unset. -/
def RecordDTO.txt_record (node_name : String) (text_data : String)
    (ttl : Nat) : RecordDTO :=
  RecordDTO.TxtRecord none none none node_name none ttl true none none
    text_data

/-- Modelled from the spec: the free-text record constructor that
`main.rs` invokes with a fourth argument (`RecordDTO::txt_record(name,
value, ttl, None)` at line 182 and `... Some(record_id)` at line 191).
`dynu.rs` as given defines only the three-argument, identity-less form
above, so the identity-targeting mode invoked by `main.rs` is missing
from the sources; per §4.1 of the spec the constructor carries key,
payload and time-to-live and either leaves the identity unset ("new"
mode) or targets an existing remote identity. With `id = none` this
definition coincides with the three-argument constructor of `dynu.rs`. -/
def RecordDTO.txt_record4 (node_name : String) (text_data : String)
    (ttl : Nat) (id : Option Nat) : RecordDTO :=
  RecordDTO.TxtRecord id none none node_name none ttl true none none
    text_data

/-! ## Network state probe (from `src/netutils.rs`) -/

/-- An HTTP-level failure of the ipify request or of reading its body. -/
inductive HttpErr where
  | failed (msg : String)
deriving Repr, DecidableEq

deriving instance DecidableEq for Except

/-- The observable part of an HTTP response for the probe: the status code
and the outcome of reading the body (`Response::text`). -/
structure HttpResponse where
  status : Nat
  body : Except HttpErr String
deriving Repr, DecidableEq

/-- Function `ip` from `netutils.rs` lines 10-20, modelled over the outcome of the
`reqwest::blocking::get` request against the selected ipify endpoint (the
V4/V6 endpoint selection is pure I/O plumbing and is represented by which
response value is passed in). The Rust code is
`reqwest::blocking::get(address).and_then(|r| r.text())` followed by
`Ok(t) => Some(t), _ => None`: the status code of the response is never
inspected. -/
def ip (resp : Except HttpErr HttpResponse) : Option String :=
  match resp with
  | .error _ => none
  | .ok r =>
    match r.body with
    | .error _ => none
    | .ok t => some t

/-- A resolved IP address as returned by `dns_lookup::lookup_host`,
already rendered to its string form (`to_string`). -/
inductive IpAddr where
  | V4 (s : String)
  | V6 (s : String)
deriving Repr, DecidableEq

/-- A failure of `dns_lookup::lookup_host`. -/
inductive LookupErr where
  | failed
deriving Repr, DecidableEq

/-- The `io::Error` type of `netutils::public_ip_of`'s signature. -/
inductive IoErr where
  | failed
deriving Repr, DecidableEq

/-- Structure `Addresses` from `netutils.rs` lines 22-25. -/
structure Addresses where
  v4 : Option String
  v6 : Option String
deriving Repr, DecidableEq

/-- The `for ip in resolved` loop of `public_ip_of` (`netutils.rs` lines
34-47): keep the first V4 and the first V6 seen, in list order. -/
def collect_ips : List IpAddr → Option String → Option String → Addresses
  | [], v4, v6 => { v4 := v4, v6 := v6 }
  | .V4 s :: rest, v4, v6 =>
    collect_ips rest (if v4.isNone then some s else v4) v6
  | .V6 s :: rest, v4, v6 =>
    collect_ips rest v4 (if v6.isNone then some s else v6)

/-- Function `public_ip_of` from `netutils.rs` lines 27-49, modelled over the
outcome of the `dns_lookup::lookup_host` call. The Rust code is
`lookup_host(domain).unwrap_or_else(|_| vec!())`: a lookup failure is
replaced by the empty list, after which the empty case returns
`Ok(Addresses { v4: None, v6: None })`. -/
def public_ip_of (lookup : Except LookupErr (List IpAddr)) :
    Except IoErr Addresses :=
  let resolved := match lookup with
    | .ok l => l
    | .error _ => []
  if resolved.isEmpty then .ok { v4 := none, v6 := none }
  else .ok (collect_ips resolved none none)

/-! ## Reconciler and command surface (from `src/main.rs`) -/

/-- Inductive `SelfError` from `main.rs` lines 18-23, with client errors carried as
their diagnostic message and with an extra `panicked` outcome modelling a
Rust `.unwrap()` on `None` (a process abort, kept distinct from every
returned error). -/
inductive SelfError where
  | msgError (msg : String)
  | clientError (msg : String)
  | ioError
  | panicked
deriving Repr, DecidableEq

/-- One call made through `DynuClient` to the remote directory, recorded
with the data the call carries. -/
inductive RemoteCall where
  | getDomains
  | getDomain (id : Nat)
  | updateDomain (d : DomainDTO)
  | getRecords (domainId : Nat)
  | createRecord (domainId : Nat) (r : RecordDTO)
  | updateRecord (domainId : Nat) (recordId : Nat) (r : RecordDTO)
  | deleteRecord (domainId : Nat) (recordId : Nat)
deriving Repr, DecidableEq

/-- Whether a remote call is a write (mutation) as opposed to a read. -/
def RemoteCall.isWrite : RemoteCall → Bool
  | .updateDomain _ => true
  | .createRecord _ _ => true
  | .updateRecord _ _ _ => true
  | .deleteRecord _ _ => true
  | _ => false

/-- The remote directory's behaviour during one invocation: the outcome
each `DynuClient` endpoint would produce if called. Errors stand for both
transport failures and non-success HTTP responses, which `dynu.rs`
surfaces alike as a `ClientError` with a message. -/
structure DynuEnv where
  domains : Except String (List DomainDTO)
  getDomainResp : Except String (Option DomainDTO)
  records : Except String (List RecordDTO)
  createResp : Except String Nat
  updateDomainResp : Except String Unit
  updateRecordResp : Except String Unit
  deleteResp : Except String Unit
deriving DecidableEq

/-- The network probe's behaviour during one invocation: the HTTP outcome
of the two ipify requests and the outcome of the DNS lookup for the
target domain. -/
structure ProbeEnv where
  v4 : Except HttpErr HttpResponse
  v6 : Except HttpErr HttpResponse
  lookup : Except LookupErr (List IpAddr)
deriving DecidableEq

/-- Function `get_api_key` from `main.rs` lines 101-111: the explicit `--api-key`
argument wins; otherwise the `DYNU_API_KEY` environment variable is read,
and its absence becomes a configuration error message. -/
def get_api_key (api_key_arg : Option String) (env_var : Option String) :
    Except SelfError String :=
  match api_key_arg with
  | some value => .ok value
  | none =>
    match env_var with
    | some value => .ok value
    | none => .error (.msgError
      "provide 'api-key' argument or define environment variable DYNU_API_KEY")

/-- The scan predicate shared by `txt_update` (`main.rs` lines 176-179)
and `txt_delete` (`main.rs` lines 202-205): a record matches when it is a
`TxtRecord` whose `node_name` equals the requested name, by exact string
equality; every other variant is rejected. -/
def txtNameMatches (name : String) : RecordDTO → Bool
  | .TxtRecord _ _ _ node_name _ _ _ _ _ _ => node_name == name
  | _ => false

/-- Function `find_domain_id` from `main.rs` lines 120-130: list all domains, take
the first whose `name` equals the requested domain, and fail with a
message naming the domain when none matches. Returns the result together
with the trace of remote calls made. -/
def find_domain_id (env : DynuEnv) (domain : String) :
    Except SelfError DomainDTO × List RemoteCall :=
  match env.domains with
  | .error m => (.error (.clientError m), [.getDomains])
  | .ok ds =>
    match ds.find? (fun d => d.name == domain) with
    | none =>
      (.error (.msgError ("domain=" ++ domain ++ " cannot be found in dynu")),
       [.getDomains])
    | some d => (.ok d, [.getDomains])

/-- Function `refresh` from `main.rs` lines 132-164: detect the host's public IPv4
and IPv6, resolve the domain's published pair, and stop without any
remote directory call when the two pairs are equal; otherwise fetch the
domain, set its address fields and enable flags from the detected
addresses, issue one `update_domain` call, and re-read the domain for
logging. `update_domain` (`dynu.rs` line 219) unwraps the domain's
identity before sending, so a missing identity panics before any call is
issued. -/
def refresh (env : DynuEnv) (probe : ProbeEnv) (domain : String) :
    Except SelfError Unit × List RemoteCall :=
  let ipv4 := ip probe.v4
  let ipv6 := ip probe.v6
  match public_ip_of probe.lookup with
  | .error _ => (.error .ioError, [])
  | .ok resolved =>
    if resolved.v4 = ipv4 ∧ resolved.v6 = ipv6 then
      (.ok (), [])
    else
      match find_domain_id env domain with
      | (.error e, calls) => (.error e, calls)
      | (.ok d, calls) =>
        let d2 : DomainDTO :=
          { d with ipv4 := ipv4.isSome, ipv6 := ipv6.isSome,
                   ipv4_address := ipv4, ipv6_address := ipv6 }
        match d2.id with
        | none => (.error .panicked, calls)
        | some domainId =>
          let calls := calls ++ [.updateDomain d2]
          match env.updateDomainResp with
          | .error m => (.error (.clientError m), calls)
          | .ok _ =>
            let calls := calls ++ [.getDomain domainId]
            match env.getDomainResp with
            | .error m => (.error (.clientError m), calls)
            | .ok _ => (.ok (), calls)

/-- Function `txt_update` from `main.rs` lines 166-196: resolve the domain, list
its records, scan for a free-text record with the requested name; when
none exists, create a new identity-less free-text record with the given
name/value/ttl; when one exists, unwrap its identity and issue one
`update_record` call targeting it. `update_record` (`dynu.rs` line 300)
unwraps the record's identity to build the target URL before sending. -/
def txt_update (env : DynuEnv) (domain : String) (name : String)
    (value : String) (ttl : Nat) :
    Except SelfError Unit × List RemoteCall :=
  match find_domain_id env domain with
  | (.error e, calls) => (.error e, calls)
  | (.ok d, calls) =>
    match d.id with
    | none => (.error .panicked, calls)
    | some domainId =>
      let calls := calls ++ [.getRecords domainId]
      match env.records with
      | .error m => (.error (.clientError m), calls)
      | .ok records =>
        match records.find? (txtNameMatches name) with
        | none =>
          let txtRecord := RecordDTO.txt_record4 name value ttl none
          let calls := calls ++ [.createRecord domainId txtRecord]
          match env.createResp with
          | .error m => (.error (.clientError m), calls)
          | .ok _id => (.ok (), calls)
        | some existing =>
          match existing.id with
          | none => (.error .panicked, calls)
          | some recordId =>
            let txtRecord := RecordDTO.txt_record4 name value ttl
              (some recordId)
            match txtRecord.id with
            | none => (.error .panicked, calls)
            | some targetId =>
              let calls := calls ++ [.updateRecord domainId targetId txtRecord]
              match env.updateRecordResp with
              | .error m => (.error (.clientError m), calls)
              | .ok _ => (.ok (), calls)

/-- Function `txt_delete` from `main.rs` lines 198-216: resolve the domain, list
its records, scan for a free-text record with the requested name; when
none exists, fail with a message naming the record and the domain; when
one exists, issue `delete_record` targeting its identity — and then, in
the final `Ok(...)` expression of the Rust function (line 215), issue the
same `delete_record` call a second time. -/
def txt_delete (env : DynuEnv) (domain_name : String) (name : String) :
    Except SelfError Unit × List RemoteCall :=
  match find_domain_id env domain_name with
  | (.error e, calls) => (.error e, calls)
  | (.ok d, calls) =>
    match d.id with
    | none => (.error .panicked, calls)
    | some domainId =>
      let calls := calls ++ [.getRecords domainId]
      match env.records with
      | .error m => (.error (.clientError m), calls)
      | .ok records =>
        match records.find? (txtNameMatches name) with
        | none =>
          (.error (.msgError
            (name ++ " in domain " ++ domain_name ++ " does not exist")),
           calls)
        | some existing =>
          match existing.id with
          | none => (.error .panicked, calls)
          | some recordId =>
            let calls := calls ++ [.deleteRecord domainId recordId]
            match env.deleteResp with
            | .error m => (.error (.clientError m), calls)
            | .ok _ =>
              match existing.id with
              | none => (.error .panicked, calls)
              | some recordId2 =>
                let calls := calls ++ [.deleteRecord domainId recordId2]
                match env.deleteResp with
                | .error m => (.error (.clientError m), calls)
                | .ok _ => (.ok (), calls)

/-- The `Commands` subcommand enum from `main.rs` lines 68-99. -/
inductive Commands where
  | Refresh (domain : String)
  | UpdateTxtRecord (name : String) (ttl : Nat) (value : String)
      (domain : String)
  | DeleteTxtRecord (domain : String) (name : String)
deriving Repr, DecidableEq

/-- Structure `MainArguments` from `main.rs` lines 55-66. -/
structure MainArguments where
  api_key : Option String
  cmd : Commands
deriving Repr, DecidableEq

/-- Function `main` from `main.rs` lines 218-232: resolve the API key first, then
construct the client (pure header assembly, no remote call), then
dispatch on the subcommand. When `get_api_key` fails, the function
returns its error before the client is built and before any remote call
is made. -/
def main_model (args : MainArguments) (env_var : Option String)
    (env : DynuEnv) (probe : ProbeEnv) :
    Except SelfError Unit × List RemoteCall :=
  match get_api_key args.api_key env_var with
  | .error e => (.error e, [])
  | .ok _api_key =>
    match args.cmd with
    | .Refresh domain => refresh env probe domain
    | .UpdateTxtRecord name ttl value domain =>
      txt_update env domain name value ttl
    | .DeleteTxtRecord domain name => txt_delete env domain name

/-! ## Concrete environments used as witnesses -/

/-- A remote directory with one active domain `example.com` (identity 1)
publishing IPv4 `203.0.113.5`, holding one free-text record named `k`
with identity 5, and answering every mutation with success. -/
def domainExample : DomainDTO :=
  { id := some 1, name := "example.com", unicode_name := "example.com",
    token := none, state := "DNS_ACTIVE", group := "",
    ipv4_address := some "203.0.113.5", ipv6_address := none, ttl := 120,
    ipv4 := true, ipv6 := false, ipv4_wildcard_alias := false,
    ipv6_wildcard_alias := false, created_on := none, updated_on := none }

/-- A free-text record named `k` with identity 5 under `example.com`. -/
def txtRecordK : RecordDTO :=
  RecordDTO.TxtRecord (some 5) (some 1) (some "example.com") "k" none 120
    true none none "payload"

/-- Directory environment holding `example.com` and the record `k`. -/
def envWithK : DynuEnv :=
  { domains := .ok [domainExample], getDomainResp := .ok (some domainExample),
    records := .ok [txtRecordK], createResp := .ok 9,
    updateDomainResp := .ok (), updateRecordResp := .ok (),
    deleteResp := .ok () }

/-- Directory environment holding `example.com` but no free-text record
named `k` (only an address record named `k` and a free-text record with a
different name). -/
def envNoK : DynuEnv :=
  { domains := .ok [domainExample], getDomainResp := .ok (some domainExample),
    records := .ok
      [RecordDTO.ARecord (some 3) (some 1) none "k" none 60 true none none
        "grp",
       RecordDTO.TxtRecord (some 4) (some 1) none "other" none 60 true none
        none "x"],
    createResp := .ok 9, updateDomainResp := .ok (),
    updateRecordResp := .ok (), deleteResp := .ok () }

/-- Probe environment in which both ipify requests and the DNS lookup
fail: the host detects no address of either family. -/
def probeAllDown : ProbeEnv :=
  { v4 := .error (.failed "down"), v6 := .error (.failed "down"),
    lookup := .error .failed }

/-- Probe environment realising the end-to-end example of §8 of the spec:
the host detects IPv4 `203.0.113.9` and no IPv6, while the domain
resolves to IPv4 `203.0.113.5` and no IPv6. -/
def probeChange : ProbeEnv :=
  { v4 := .ok { status := 200, body := .ok "203.0.113.9" },
    v6 := .error (.failed "no ipv6"),
    lookup := .ok [.V4 "203.0.113.5"] }

/-! ## Helper lemmas -/

/-- A successful `find?` splits its list at the first satisfying element:
everything before the hit fails the predicate. -/
theorem find?_first_split {α : Type} (p : α → Bool) :
    ∀ (l : List α) (a : α), l.find? p = some a →
      ∃ pre post, l = pre ++ a :: post ∧ ∀ x ∈ pre, p x = false
  | [], a, h => by simp [List.find?] at h
  | x :: xs, a, h => by
    by_cases hx : p x
    · rw [List.find?_cons_of_pos _ hx] at h
      cases h
      exact ⟨[], xs, rfl, by simp⟩
    · rw [List.find?_cons_of_neg _ hx] at h
      obtain ⟨pre, post, hsplit, hpre⟩ := find?_first_split p xs a h
      refine ⟨x :: pre, post, by rw [hsplit]; rfl, ?_⟩
      intro y hy
      rcases List.mem_cons.mp hy with h1 | h2
      · subst h1; simpa using hx
      · exact hpre y h2

/-- Exhaustive characterisation of `find_domain_id`: either the domain
listing fails, or no listed domain has the requested name, or the first
listed domain with that name is returned; in every case exactly one
(read) call is made. -/
theorem find_domain_id_cases (env : DynuEnv) (domain : String) :
    (∃ m, env.domains = .error m ∧
      find_domain_id env domain = (.error (.clientError m), [.getDomains])) ∨
    (∃ ds, env.domains = .ok ds ∧
      ds.find? (fun d => d.name == domain) = none ∧
      find_domain_id env domain =
        (.error (.msgError ("domain=" ++ domain ++ " cannot be found in dynu")),
         [.getDomains])) ∨
    (∃ ds d, env.domains = .ok ds ∧
      ds.find? (fun d => d.name == domain) = some d ∧ d ∈ ds ∧
      find_domain_id env domain = (.ok d, [.getDomains])) := by
  rcases hd : env.domains with m | ds
  · exact Or.inl ⟨m, rfl, by simp [find_domain_id, hd]⟩
  · rcases hf : ds.find? (fun d => d.name == domain) with _ | d
    · exact Or.inr (Or.inl ⟨ds, rfl, hf, by simp [find_domain_id, hd, hf]⟩)
    · exact Or.inr (Or.inr ⟨ds, d, rfl, hf, List.mem_of_find?_eq_some hf,
        by simp [find_domain_id, hd, hf]⟩)

/-! ## Claim theorems -/

/-- C1: for every `refresh(domainName)` invocation in which the host's
detected (IPv4, IPv6) pair is exactly equal to the pair resolved for the
domain (missing-on-both-sides counting as equal, `Option` equality),
`refresh` makes no remote directory call at all — in particular zero
write calls — and completes successfully as a no-op. -/
theorem refresh_noop_when_equal (env : DynuEnv) (probe : ProbeEnv)
    (domain : String) (resolved : Addresses)
    (hres : public_ip_of probe.lookup = .ok resolved)
    (h4 : resolved.v4 = ip probe.v4) (h6 : resolved.v6 = ip probe.v6) :
    refresh env probe domain = (.ok (), []) := by
  simp only [refresh, hres]
  rw [if_pos ⟨h4, h6⟩]

/-- Witness for C1: with both ipify probes and the DNS lookup failing,
detected and resolved pairs are both (none, none), and `refresh`
completes as a no-op with an empty call trace. -/
theorem refresh_noop_when_equal_witness :
    public_ip_of probeAllDown.lookup = .ok { v4 := none, v6 := none } ∧
    refresh envWithK probeAllDown "example.com" = (.ok (), []) :=
  ⟨rfl, refresh_noop_when_equal envWithK probeAllDown "example.com"
    { v4 := none, v6 := none } rfl rfl rfl⟩

/-- C10: the host-address probe `ip` returns the response body as the
detected address for every HTTP response, regardless of its status code
(shown for an arbitrary status and, concretely, for a 500), and returns
`none` exactly when the request itself or reading the body fails. -/
theorem ip_ignores_http_status :
    (∀ status body, ip (.ok { status := status, body := .ok body }) =
      some body) ∧
    (ip (.ok { status := 500, body := .ok "Internal Server Error" }) =
      some "Internal Server Error") ∧
    (∀ e, ip (.error e) = none) ∧
    (∀ status e, ip (.ok { status := status, body := .error e }) = none) :=
  ⟨fun _ _ => rfl, rfl, fun _ => rfl, fun _ _ => rfl⟩

/-- Counterexample to C7: at a concrete input where the DNS lookup fails,
`public_ip_of` returns a successful empty (none, none) result instead of
an error, and `refresh` completes successfully — the probe failure is
not propagated to the caller. -/
theorem lookup_failure_not_propagated :
    public_ip_of (.error .failed) = .ok { v4 := none, v6 := none } ∧
    (refresh envWithK probeAllDown "example.com").1 = .ok () :=
  ⟨rfl, rfl⟩

/-- C7 (amended): when the network probe's domain-resolution lookup
fails, `public_ip_of` swallows the failure and returns a successful
empty (no IPv4, no IPv6) result, so `refresh` behaves exactly as if the
lookup had succeeded with an empty address list. -/
theorem refresh_lookup_failure_degrades (env : DynuEnv)
    (a b : Except HttpErr HttpResponse) (e : LookupErr) (domain : String) :
    public_ip_of (.error e) = .ok { v4 := none, v6 := none } ∧
    refresh env { v4 := a, v6 := b, lookup := .error e } domain =
      refresh env { v4 := a, v6 := b, lookup := .ok [] } domain :=
  ⟨rfl, rfl⟩

/-- C8: the API credential is resolved with the explicit argument taking
priority over the process environment variable, and when both are absent
the command surface fails with the configuration error message and makes
zero remote calls, whatever the subcommand. -/
theorem api_key_priority_and_config_error :
    (∀ v e, get_api_key (some v) e = .ok v) ∧
    (∀ (cmd : Commands) (env : DynuEnv) (probe : ProbeEnv),
      main_model { api_key := none, cmd := cmd } none env probe =
        (.error (.msgError
          "provide 'api-key' argument or define environment variable DYNU_API_KEY"),
         [])) :=
  ⟨fun _ _ => rfl, fun _ _ _ => rfl⟩

/-- C4 (code evaluation at the failing input): the free-text record
constructor defined in `dynu.rs` always leaves the identity unset — in
particular the record built for the update path of
`upsertText(domain, "k", "v2", 60)` carries no identity — so it has no
mode targeting an existing remote identity, even though `main.rs` line
191 invokes it with the extra argument `Some(record_id)`. -/
theorem txt_record_cannot_target_identity :
    (RecordDTO.txt_record "k" "v2" 60).id = none ∧
    (∀ node_name text_data ttl,
      (RecordDTO.txt_record node_name text_data ttl).id = none) :=
  ⟨rfl, fun _ _ _ => rfl⟩

/-- C2 (code evaluation at the failing input): deleting a missing record
fails with a not-found error naming the key and issues zero delete
calls, as the claim states; but deleting the existing record `k`
(identity 5) issues the `delete_record` call twice — `main.rs` line 213
and again in the return expression at line 215 — not exactly once. -/
theorem txt_delete_issues_two_delete_calls :
    txt_delete envWithK "example.com" "missing" =
      (.error (.msgError "missing in domain example.com does not exist"),
       [.getDomains, .getRecords 1]) ∧
    txt_delete envWithK "example.com" "k" =
      (.ok (), [.getDomains, .getRecords 1, .deleteRecord 1 5,
        .deleteRecord 1 5]) ∧
    ((txt_delete envWithK "example.com" "k").2.filter
      RemoteCall.isWrite).length = 2 :=
  ⟨rfl, rfl, rfl⟩

/-- C3: for every `refresh` invocation in which the detected pair differs
from the resolved pair in at least one family, and the domain is found in
the directory listing with a resolved identity, `refresh` issues exactly
one write call — a domain update whose payload carries the newly detected
addresses and the derived enable flags: an absent address sets the flag
to `false` and clears the address field, a present address sets the flag
to `true` and the field to that address. -/
theorem refresh_change_single_write (env : DynuEnv) (probe : ProbeEnv)
    (domain : String) (resolved : Addresses) (ds : List DomainDTO)
    (d : DomainDTO) (i : Nat)
    (hres : public_ip_of probe.lookup = .ok resolved)
    (hne : ¬(resolved.v4 = ip probe.v4 ∧ resolved.v6 = ip probe.v6))
    (hds : env.domains = .ok ds)
    (hfind : ds.find? (fun x => x.name == domain) = some d)
    (hid : d.id = some i) :
    ∃ p, (refresh env probe domain).2.filter RemoteCall.isWrite =
        [RemoteCall.updateDomain p] ∧
      p.ipv4_address = ip probe.v4 ∧ p.ipv6_address = ip probe.v6 ∧
      p.ipv4 = (ip probe.v4).isSome ∧ p.ipv6 = (ip probe.v6).isSome := by
  refine Exists.intro { d with ipv4 := (ip probe.v4).isSome, ipv6 := (ip probe.v6).isSome, ipv4_address := ip probe.v4, ipv6_address := ip probe.v6 } ⟨?_, rfl, rfl, rfl, rfl⟩
  simp only [refresh, hres]
  rw [if_neg hne]
  simp only [find_domain_id, hds, hfind, hid]
  rcases hud : env.updateDomainResp with m | u <;>
    rcases hgd : env.getDomainResp with m2 | o <;>
      simp [hud, hgd, RemoteCall.isWrite]

/-- Witness for C3, realising the end-to-end example of §8: the host
detects IPv4 `203.0.113.9` and no IPv6 while the domain publishes
`203.0.113.5`; the single write is a domain update setting IPv4 to the
detected value, IPv4-enabled true, IPv6-enabled false, IPv6 cleared. -/
theorem refresh_change_single_write_witness :
    ∃ p, (refresh envWithK probeChange "example.com").2.filter
        RemoteCall.isWrite = [RemoteCall.updateDomain p] ∧
      p.ipv4_address = ip probeChange.v4 ∧
      p.ipv6_address = ip probeChange.v6 ∧
      p.ipv4 = (ip probeChange.v4).isSome ∧
      p.ipv6 = (ip probeChange.v6).isSome :=
  refresh_change_single_write envWithK probeChange "example.com"
    { v4 := some "203.0.113.5", v6 := none } [domainExample] domainExample 1
    rfl (by decide) rfl rfl rfl

/-- C5: for every `upsertText` invocation where the domain is found with
a resolved identity and no free-text record with the requested key exists
among its records, the operation issues exactly one write call — a
create carrying the record built by the `dynu.rs` free-text constructor,
which holds the given key, value and ttl and has no identity set. -/
theorem txt_update_create_on_absence (env : DynuEnv)
    (domain name value : String) (ttl : Nat) (ds : List DomainDTO)
    (d : DomainDTO) (i : Nat) (records : List RecordDTO)
    (hds : env.domains = .ok ds)
    (hfind : ds.find? (fun x => x.name == domain) = some d)
    (hid : d.id = some i)
    (hrecs : env.records = .ok records)
    (hnone : records.find? (txtNameMatches name) = none) :
    (txt_update env domain name value ttl).2.filter RemoteCall.isWrite =
      [RemoteCall.createRecord i (RecordDTO.txt_record name value ttl)] ∧
    (RecordDTO.txt_record name value ttl).id = none ∧
    RecordDTO.txt_record name value ttl =
      RecordDTO.TxtRecord none none none name none ttl true none none
        value := by
  refine ⟨?_, rfl, rfl⟩
  simp only [txt_update, find_domain_id, hds, hfind, hid, hrecs, hnone]
  rcases hc : env.createResp with m | j <;>
    simp [hc, RemoteCall.isWrite, RecordDTO.txt_record4,
      RecordDTO.txt_record]

/-- Witness for C5: upserting `k` with value `v` and ttl 120 against a
domain whose records hold no free-text record named `k` issues exactly
the create call with the identity-less record. -/
theorem txt_update_create_on_absence_witness :
    (txt_update envNoK "example.com" "k" "v" 120).2.filter
      RemoteCall.isWrite =
      [RemoteCall.createRecord 1 (RecordDTO.txt_record "k" "v" 120)] ∧
    (RecordDTO.txt_record "k" "v" 120).id = none ∧
    RecordDTO.txt_record "k" "v" 120 =
      RecordDTO.TxtRecord none none none "k" none 120 true none none "v" :=
  txt_update_create_on_absence envNoK "example.com" "k" "v" 120
    [domainExample] domainExample 1
    [RecordDTO.ARecord (some 3) (some 1) none "k" none 60 true none none
      "grp",
     RecordDTO.TxtRecord (some 4) (some 1) none "other" none 60 true none
      none "x"]
    rfl rfl rfl rfl rfl

/-- C6: the scan shared by upsert and delete selects only free-text
records — a record matches the predicate exactly when it is a
`TxtRecord` whose `node_name` equals the requested key by exact,
case-sensitive string equality — and a successful scan returns the first
matching record in list order: every record before it in the list fails
the predicate. -/
theorem scan_selects_first_exact_txt (records : List RecordDTO)
    (name : String) (r : RecordDTO)
    (h : records.find? (txtNameMatches name) = some r) :
    (∃ pre post, records = pre ++ r :: post ∧
      ∀ x ∈ pre, txtNameMatches name x = false) ∧
    (∃ i di dn hn t st c uo td,
      r = RecordDTO.TxtRecord i di dn name hn t st c uo td) ∧
    (∀ x : RecordDTO, txtNameMatches name x = true ↔
      ∃ i di dn hn t st c uo td,
        x = RecordDTO.TxtRecord i di dn name hn t st c uo td) := by
  refine ⟨find?_first_split _ records r h, ?_, ?_⟩
  · have hp := List.find?_some h
    cases r with
    | TxtRecord i di dn nn hn t st c uo td =>
      simp only [txtNameMatches] at hp
      have hnn : nn = name := eq_of_beq hp
      subst hnn
      exact ⟨i, di, dn, hn, t, st, c, uo, td, rfl⟩
    | SoaRecord i di dn nn hn t st c uo mn rn rf rt ex nt =>
      simp [txtNameMatches] at hp
    | ARecord i di dn nn hn t st c uo g =>
      simp [txtNameMatches] at hp
  · intro x
    cases x with
    | TxtRecord i di dn nn hn t st c uo td =>
      simp only [txtNameMatches, beq_iff_eq]
      constructor
      · intro he
        subst he
        exact ⟨i, di, dn, hn, t, st, c, uo, td, rfl⟩
      · rintro ⟨i2, di2, dn2, hn2, t2, st2, c2, uo2, td2, heq⟩
        cases heq
        rfl
    | SoaRecord i di dn nn hn t st c uo mn rn rf rt ex nt =>
      simp [txtNameMatches]
    | ARecord i di dn nn hn t st c uo g =>
      simp [txtNameMatches]

/-- Record list exercising every facet of the scan: an address record
named `k` (wrong kind), a free-text record named `K` (case differs), and
two free-text records named `k` (identities 3 and 4). -/
def scanRecords : List RecordDTO :=
  [RecordDTO.ARecord (some 1) (some 1) none "k" none 60 true none none
    "grp",
   RecordDTO.TxtRecord (some 2) (some 1) none "K" none 60 true none none
    "up",
   RecordDTO.TxtRecord (some 3) (some 1) none "k" none 60 true none none
    "first",
   RecordDTO.TxtRecord (some 4) (some 1) none "k" none 60 true none none
    "second"]

/-- Witness for C6: on `scanRecords` the scan for key `k` skips the
address record named `k` and the free-text record named `K`, and returns
the first of the two free-text records named `k` (identity 3). -/
theorem scan_selects_first_exact_txt_witness :
    scanRecords.find? (txtNameMatches "k") =
      some (RecordDTO.TxtRecord (some 3) (some 1) none "k" none 60 true
        none none "first") ∧
    ((∃ pre post, scanRecords = pre ++
        (RecordDTO.TxtRecord (some 3) (some 1) none "k" none 60 true none
          none "first") :: post ∧
        ∀ x ∈ pre, txtNameMatches "k" x = false) ∧
     (∃ i di dn hn t st c uo td,
        RecordDTO.TxtRecord (some 3) (some 1) none "k" none 60 true none
          none "first" =
          RecordDTO.TxtRecord i di dn "k" hn t st c uo td) ∧
     (∀ x : RecordDTO, txtNameMatches "k" x = true ↔
        ∃ i di dn hn t st c uo td,
          x = RecordDTO.TxtRecord i di dn "k" hn t st c uo td)) :=
  ⟨rfl, scan_selects_first_exact_txt scanRecords "k"
    (RecordDTO.TxtRecord (some 3) (some 1) none "k" none 60 true none none
      "first") rfl⟩

/-- Decidable form of the directory invariant assumed throughout the
spec's data model (§3): every domain in the listing and every record in
the record listing carries a remote-assigned identity. -/
def identitiesResolved (env : DynuEnv) : Bool :=
  (match env.domains with
   | .ok ds => ds.all (fun d => d.id.isSome)
   | .error _ => true) &&
  (match env.records with
   | .ok rs => rs.all (fun r => (RecordDTO.id r).isSome)
   | .error _ => true)

/-- C9: under the directory invariant that listed domains and records
carry resolved identities, no reconciliation flow ever reaches the
panic branch of the identity extraction (`.unwrap()` on a missing
identity) inside or on the way to the mutation operations: `refresh`,
`txt_update` and `txt_delete` never end in the `panicked` outcome, for
any probe behaviour and any remote response outcomes. -/
theorem reconciler_never_hits_identity_panic (env : DynuEnv)
    (probe : ProbeEnv) (domain name value : String) (ttl : Nat)
    (h : identitiesResolved env = true) :
    (refresh env probe domain).1 ≠ .error .panicked ∧
    (txt_update env domain name value ttl).1 ≠ .error .panicked ∧
    (txt_delete env domain name).1 ≠ .error .panicked := by
  have hsplit := h
  simp only [identitiesResolved, Bool.and_eq_true] at hsplit
  have hdom : ∀ ds, env.domains = .ok ds → ∀ d ∈ ds, d.id.isSome = true := by
    intro ds hds d hd
    have h1 := hsplit.1
    rw [hds] at h1
    simp only [List.all_eq_true] at h1
    exact h1 d hd
  have hrec : ∀ rs, env.records = .ok rs →
      ∀ r ∈ rs, (RecordDTO.id r).isSome = true := by
    intro rs hrs r hr
    have h2 := hsplit.2
    rw [hrs] at h2
    simp only [List.all_eq_true] at h2
    exact h2 r hr
  refine ⟨?_, ?_, ?_⟩
  · rcases hres : public_ip_of probe.lookup with e | resolved
    · simp [refresh, hres]
    · simp only [refresh, hres]
      by_cases hcond : resolved.v4 = ip probe.v4 ∧ resolved.v6 = ip probe.v6
      · rw [if_pos hcond]; simp
      · rw [if_neg hcond]
        rcases find_domain_id_cases env domain with
          ⟨m, _, hfd⟩ | ⟨ds, _, _, hfd⟩ | ⟨ds, d, hds, _, hmem, hfd⟩
        · rw [hfd]; simp
        · rw [hfd]; simp
        · rw [hfd]
          obtain ⟨i, hi⟩ := Option.isSome_iff_exists.mp (hdom ds hds d hmem)
          rcases hud : env.updateDomainResp with m | u <;>
            rcases hgd : env.getDomainResp with m2 | o <;>
              simp [hi, hud, hgd]
  · rcases find_domain_id_cases env domain with
      ⟨m, _, hfd⟩ | ⟨ds, _, _, hfd⟩ | ⟨ds, d, hds, _, hmem, hfd⟩
    · simp [txt_update, hfd]
    · simp [txt_update, hfd]
    · obtain ⟨i, hi⟩ := Option.isSome_iff_exists.mp (hdom ds hds d hmem)
      simp only [txt_update, hfd, hi]
      rcases hrecs : env.records with m | records
      · simp [hrecs]
      · rcases hfr : records.find? (txtNameMatches name) with _ | existing
        · rcases hc : env.createResp with m | j <;> simp [hrecs, hfr, hc]
        · obtain ⟨ri, hri⟩ := Option.isSome_iff_exists.mp
            (hrec records hrecs existing (List.mem_of_find?_eq_some hfr))
          have hreduce : ∀ j : Nat,
              (RecordDTO.txt_record4 name value ttl (some j)).id = some j :=
            fun _ => rfl
          rcases hur : env.updateRecordResp with m | u <;>
            simp [hrecs, hfr, hri, hur, hreduce]
  · rcases find_domain_id_cases env domain with
      ⟨m, _, hfd⟩ | ⟨ds, _, _, hfd⟩ | ⟨ds, d, hds, _, hmem, hfd⟩
    · simp [txt_delete, hfd]
    · simp [txt_delete, hfd]
    · obtain ⟨i, hi⟩ := Option.isSome_iff_exists.mp (hdom ds hds d hmem)
      simp only [txt_delete, hfd, hi]
      rcases hrecs : env.records with m | records
      · simp [hrecs]
      · rcases hfr : records.find? (txtNameMatches name) with _ | existing
        · simp [hrecs, hfr]
        · obtain ⟨ri, hri⟩ := Option.isSome_iff_exists.mp
            (hrec records hrecs existing (List.mem_of_find?_eq_some hfr))
          rcases hdel : env.deleteResp with m | u <;>
            simp [hrecs, hfr, hri, hdel]

/-- Witness for C9: the concrete directory `envWithK` satisfies the
identity invariant, and all three flows avoid the panic outcome on it. -/
theorem reconciler_never_hits_identity_panic_witness :
    identitiesResolved envWithK = true ∧
    ((refresh envWithK probeChange "example.com").1 ≠ .error .panicked ∧
     (txt_update envWithK "example.com" "k" "v2" 60).1 ≠
       .error .panicked ∧
     (txt_delete envWithK "example.com" "k").1 ≠ .error .panicked) :=
  ⟨rfl, reconciler_never_hits_identity_panic envWithK probeChange
    "example.com" "k" "v2" 60 rfl⟩
